import Mathlib

/-!
Shallow embedding of the session-backed authentication core of the
`note-app` backend (`src/backend/app`): the user / session data model
(`app/models/user.py`), the repositories
(`app/repositories/user_repository.py`,
`app/repositories/session_repository.py`) and the auth service
(`app/services/auth_service.py`).

Timestamps are seconds as `Int`; database UUIDs are `Nat` identifiers.
The persistence layer is a pair of lists; every repository method is a
pure function from a `Store` to a result together with the new `Store`.
The token codec and password hashing live in `app/core/security.py`,
which is imported by the auth service but absent from the reviewed tree;
those primitives are modelled from the specification (section 4.1).
-/

deriving instance DecidableEq for Except

namespace NoteApp

/-- Kind of a signed token: `access` or `refresh` (spec section 4.1). -/
inductive TokenKind where
  | access
  | refresh
deriving DecidableEq

/-- Modelled from the spec: a token issued by the codec of
`app/core/security.py` (absent from the tree). It carries the claims the
spec names — subject id, kind and claim expiry — plus a signature
validity flag and a nonce distinguishing otherwise-equal issuances. -/
structure Token where
  kind : TokenKind
  sub : Nat
  exp : Int
  sig_ok : Bool
  nonce : Nat
deriving DecidableEq

/-- Payload returned by a successful decode (spec section 4.1). -/
structure TokenPayload where
  sub : Nat
  type : TokenKind
deriving DecidableEq

/-- Row of the `users` table (`app/models/user.py`, class `User`). -/
structure User where
  id : Nat
  email : String
  password_hash : String
  display_name : Option String
  role : String
  is_active : Bool
  last_login : Option Int
deriving DecidableEq

/-- Row of the `user_sessions` table (`app/models/user.py`, class
`UserSession`); `created_at` comes from the `TimestampMixin` of
`app/db/base.py`. -/
structure Session where
  id : Nat
  user_id : Nat
  access_token : Token
  refresh_token : Token
  expires_at : Int
  device_info : Option String
  ip_address : Option String
  user_agent : Option String
  created_at : Int
deriving DecidableEq

/-- The persisted state the two repositories act on. -/
structure Store where
  users : List User
  sessions : List Session
deriving DecidableEq

/-- Body of `TokenResponse` (`app/schemas/auth.py`) as returned by
`AuthService.login` and `AuthService.refresh_access_token`. -/
structure TokenResponse where
  access_token : Token
  refresh_token : Token
  token_type : String
  expires_in : Int
deriving DecidableEq

/-- An HTTP error as raised by the service layer (`fastapi.HTTPException`
with a status code and a detail string). -/
structure HTTPError where
  status_code : Nat
  detail : String
deriving DecidableEq

/-- Setting `ACCESS_TOKEN_EXPIRE_MINUTES` of `app/core/config.py`. -/
def ACCESS_TOKEN_EXPIRE_MINUTES : Int := 30

/-- Setting `REFRESH_TOKEN_EXPIRE_DAYS` of `app/core/config.py`. -/
def REFRESH_TOKEN_EXPIRE_DAYS : Int := 7

/-- Modelled from the spec: one-way password hashing of
`app/core/security.py` (absent from the tree); an injective stand-in. -/
def hash_password (password : String) : String :=
  "hashed:" ++ password

/-- Modelled from the spec: password verification of
`app/core/security.py` (absent from the tree): checks the candidate
against the stored hash. -/
def verify_password (password stored_hash : String) : Bool :=
  hash_password password == stored_hash

/-- Modelled from the spec: `create_access_token` of
`app/core/security.py` (absent from the tree): issues a signed access
token for the subject with the configured TTL in minutes. -/
def create_access_token (sub : Nat) (now : Int) (nonce : Nat) : Token :=
  { kind := TokenKind.access, sub := sub,
    exp := now + ACCESS_TOKEN_EXPIRE_MINUTES * 60, sig_ok := true, nonce := nonce }

/-- Modelled from the spec: `create_refresh_token` of
`app/core/security.py` (absent from the tree): issues a signed refresh
token for the subject with the configured TTL in days. -/
def create_refresh_token (sub : Nat) (now : Int) (nonce : Nat) : Token :=
  { kind := TokenKind.refresh, sub := sub,
    exp := now + REFRESH_TOKEN_EXPIRE_DAYS * 86400, sig_ok := true, nonce := nonce }

/-- Modelled from the spec: `decode_token` of `app/core/security.py`
(absent from the tree): yields the payload when the signature is valid
and the claim expiry has not passed, and fails otherwise. -/
def decode_token (t : Token) (now : Int) : Option TokenPayload :=
  if t.sig_ok && decide (now < t.exp) then
    some { sub := t.sub, type := t.kind }
  else
    none

/-- `UserRepository.get_user_by_email`: first user matching the email
with `is_active` true (the query filters on `is_active == True`). -/
def get_user_by_email (σ : Store) (email : String) : Option User :=
  σ.users.find? (fun u => u.email == email && u.is_active)

/-- `UserRepository.get_user_by_id`: first user matching the id with
`is_active` true. -/
def get_user_by_id (σ : Store) (user_id : Nat) : Option User :=
  σ.users.find? (fun u => u.id == user_id && u.is_active)

/-- `UserRepository.create_user`: refuses an email that already has an
active user, then hits the unique index on `email` (IntegrityError and
rollback) when any user at all holds it, else inserts the new row. -/
def create_user (σ : Store) (email hashed_password : String)
    (display_name : Option String) (new_id : Nat) : Except String (User × Store) :=
  if (get_user_by_email σ email).isSome then
    Except.error "A user with this email already exists."
  else if σ.users.any (fun u => u.email == email) then
    Except.error "A user with this email already exists."
  else
    let u : User :=
      { id := new_id, email := email, password_hash := hashed_password,
        display_name := display_name, role := "user", is_active := true,
        last_login := none }
    Except.ok (u, { σ with users := σ.users ++ [u] })

/-- `UserRepository.update_user_last_login`: sets `last_login` on the
matching user row. -/
def update_user_last_login (σ : Store) (user_id : Nat) (now : Int) : Store :=
  { σ with users := σ.users.map (fun u =>
      if u.id == user_id then { u with last_login := some now } else u) }

/-- `UserRepository.delete_user`: a soft delete — it only flips
`is_active` to false on the matching user row. -/
def delete_user (σ : Store) (user_id : Nat) : Store :=
  { σ with users := σ.users.map (fun u =>
      if u.id == user_id then { u with is_active := false } else u) }

/-- `SessionRepository.create_session`: inserts a new session row;
`created_at` is set to the current time by the column default. -/
def create_session (σ : Store) (new_id user_id : Nat)
    (access_token refresh_token : Token) (expires_at : Int)
    (device_info ip_address user_agent : Option String) (now : Int) :
    Session × Store :=
  let s : Session :=
    { id := new_id, user_id := user_id, access_token := access_token,
      refresh_token := refresh_token, expires_at := expires_at,
      device_info := device_info, ip_address := ip_address,
      user_agent := user_agent, created_at := now }
  (s, { σ with sessions := σ.sessions ++ [s] })

/-- `SessionRepository.get_session_by_access_token`. -/
def get_session_by_access_token (σ : Store) (tok : Token) : Option Session :=
  σ.sessions.find? (fun s => s.access_token == tok)

/-- `SessionRepository.get_session_by_refresh_token`. -/
def get_session_by_refresh_token (σ : Store) (tok : Token) : Option Session :=
  σ.sessions.find? (fun s => s.refresh_token == tok)

/-- Insertion step for `ORDER BY created_at DESC`: places the session
before the first one created no later than it. -/
def insertCreatedDesc (s : Session) : List Session → List Session
  | [] => [s]
  | t :: ts =>
    if t.created_at ≤ s.created_at then s :: t :: ts
    else t :: insertCreatedDesc s ts

/-- Sorting by `created_at` descending, modelling `ORDER BY created_at
DESC` of `get_active_sessions_by_user`. -/
def sortCreatedDesc : List Session → List Session
  | [] => []
  | s :: ss => insertCreatedDesc s (sortCreatedDesc ss)

/-- `SessionRepository.get_active_sessions_by_user`: the user's sessions
with `expires_at > now`, ordered by `created_at` descending. -/
def get_active_sessions_by_user (σ : Store) (user_id : Nat) (now : Int) :
    List Session :=
  sortCreatedDesc (σ.sessions.filter
    (fun s => s.user_id == user_id && decide (now < s.expires_at)))

/-- `SessionRepository.update_session_tokens`: fetches the row by primary
key and overwrites its two token fields and expiry; absent id leaves the
store unchanged and yields `none`. -/
def update_session_tokens (σ : Store) (session_id : Nat)
    (new_access_token new_refresh_token : Token) (new_expires_at : Int) :
    Option Session × Store :=
  match σ.sessions.find? (fun s => s.id == session_id) with
  | none => (none, σ)
  | some s =>
    let s' : Session :=
      { s with access_token := new_access_token,
               refresh_token := new_refresh_token,
               expires_at := new_expires_at }
    (some s', { σ with sessions := σ.sessions.map (fun t =>
        if t.id == session_id then
          { t with access_token := new_access_token,
                   refresh_token := new_refresh_token,
                   expires_at := new_expires_at }
        else t) })

/-- `SessionRepository.delete_session`: deletes the row with that id;
the returned flag is `rowcount > 0`. -/
def delete_session (σ : Store) (session_id : Nat) : Bool × Store :=
  (σ.sessions.any (fun s => s.id == session_id),
   { σ with sessions := σ.sessions.filter (fun s => !(s.id == session_id)) })

/-- `SessionRepository.delete_session_by_access_token`. -/
def delete_session_by_access_token (σ : Store) (tok : Token) : Bool × Store :=
  (σ.sessions.any (fun s => s.access_token == tok),
   { σ with sessions := σ.sessions.filter (fun s => !(s.access_token == tok)) })

/-- `SessionRepository.delete_all_user_sessions`: deletes every session
of the user and yields the rowcount. -/
def delete_all_user_sessions (σ : Store) (user_id : Nat) : Nat × Store :=
  ((σ.sessions.filter (fun s => s.user_id == user_id)).length,
   { σ with sessions := σ.sessions.filter (fun s => !(s.user_id == user_id)) })

/-- `SessionRepository.delete_expired_sessions`: deletes every session
with `expires_at <= now` and yields the rowcount. -/
def delete_expired_sessions (σ : Store) (now : Int) : Nat × Store :=
  ((σ.sessions.filter (fun s => decide (s.expires_at ≤ now))).length,
   { σ with sessions := σ.sessions.filter (fun s => !(decide (s.expires_at ≤ now))) })

/-- Error raised by `AuthService.login` on a missing user or a failed
password check. -/
def errInvalidCredentials : HTTPError :=
  { status_code := 401, detail := "Invalid email or password" }

/-- Error raised by `AuthService.login` on an inactive user. -/
def errAccountDeactivated : HTTPError :=
  { status_code := 403, detail := "Account is deactivated" }

/-- Error raised by `AuthService.refresh_access_token` on a bad refresh
token. -/
def errInvalidRefreshToken : HTTPError :=
  { status_code := 401, detail := "Invalid refresh token" }

/-- Error raised by `AuthService.get_current_user_from_token` on a bad
access token. -/
def errInvalidAccessToken : HTTPError :=
  { status_code := 401, detail := "Invalid access token" }

/-- Error raised by `AuthService.refresh_access_token` when no session
holds the refresh token. -/
def errSessionNotFoundRefresh : HTTPError :=
  { status_code := 401, detail := "Session not found" }

/-- Error raised by `AuthService.get_current_user_from_token` when no
session holds the access token. -/
def errSessionNotFoundAccess : HTTPError :=
  { status_code := 401, detail := "Session not found or expired" }

/-- Error raised by both token paths on an expired session. -/
def errSessionExpired : HTTPError :=
  { status_code := 401, detail := "Session expired" }

/-- Error raised by `AuthService.get_current_user_from_token` when the
subject no longer resolves to an active user. -/
def errUserNotFound : HTTPError :=
  { status_code := 401, detail := "User not found" }

/-- `AuthService.register`: refuses an email that already has an active
user, otherwise hashes the password and defers to
`UserRepository.create_user`, mapping its `ValueError` to a 400. -/
def register (σ : Store) (email password : String)
    (display_name : Option String) (new_id : Nat) :
    Except HTTPError User × Store :=
  match get_user_by_email σ email with
  | some _ =>
    (Except.error { status_code := 400, detail := "Email already registered" }, σ)
  | none =>
    match create_user σ email (hash_password password) display_name new_id with
    | Except.error e => (Except.error { status_code := 400, detail := e }, σ)
    | Except.ok (u, σ1) => (Except.ok u, σ1)

/-- `AuthService.login`: looks the user up by email (active only),
verifies the password, has a dead `AccountDeactivated` branch, records
the login time, mints both tokens and persists the session row. The
fresh session id and the two token nonces are passed explicitly, as is
the current time. -/
def login (σ : Store) (email password : String) (now : Int)
    (new_session_id na nr : Nat)
    (device_info ip_address user_agent : Option String) :
    Except HTTPError TokenResponse × Store :=
  match get_user_by_email σ email with
  | none => (Except.error errInvalidCredentials, σ)
  | some user =>
    if !(verify_password password user.password_hash) then
      (Except.error errInvalidCredentials, σ)
    else if !user.is_active then
      (Except.error errAccountDeactivated, σ)
    else
      let σ1 := update_user_last_login σ user.id now
      let access := create_access_token user.id now na
      let refresh := create_refresh_token user.id now nr
      let expires := now + REFRESH_TOKEN_EXPIRE_DAYS * 86400
      let created := create_session σ1 new_session_id user.id access refresh
        expires device_info ip_address user_agent now
      (Except.ok { access_token := access, refresh_token := refresh,
                   token_type := "bearer",
                   expires_in := ACCESS_TOKEN_EXPIRE_MINUTES * 60 },
       created.2)

/-- `AuthService.refresh_access_token`: decodes the refresh token, finds
the session by its value, evicts it when expired, else mints a new pair
(nonces passed explicitly) and rotates the row in place. -/
def refresh_access_token (σ : Store) (tok : Token) (now : Int) (na nr : Nat) :
    Except HTTPError TokenResponse × Store :=
  match decode_token tok now with
  | none => (Except.error errInvalidRefreshToken, σ)
  | some payload =>
    if payload.type != TokenKind.refresh then
      (Except.error errInvalidRefreshToken, σ)
    else
      match get_session_by_refresh_token σ tok with
      | none => (Except.error errSessionNotFoundRefresh, σ)
      | some session =>
        if session.expires_at < now then
          (Except.error errSessionExpired, (delete_session σ session.id).2)
        else
          let newA := create_access_token payload.sub now na
          let newR := create_refresh_token payload.sub now nr
          let newExp := now + REFRESH_TOKEN_EXPIRE_DAYS * 86400
          let updated := update_session_tokens σ session.id newA newR newExp
          (Except.ok { access_token := newA, refresh_token := newR,
                       token_type := "bearer",
                       expires_in := ACCESS_TOKEN_EXPIRE_MINUTES * 60 },
           updated.2)

/-- `AuthService.logout`: deletes the session matching the access token. -/
def logout (σ : Store) (tok : Token) : Bool × Store :=
  delete_session_by_access_token σ tok

/-- `AuthService.logout_all_sessions`. -/
def logout_all_sessions (σ : Store) (user_id : Nat) : Nat × Store :=
  delete_all_user_sessions σ user_id

/-- `AuthService.get_current_user_from_token`: decodes the access token,
finds the session by its value, evicts it when expired, then resolves
the subject to an active user. -/
def get_current_user_from_token (σ : Store) (tok : Token) (now : Int) :
    Except HTTPError User × Store :=
  match decode_token tok now with
  | none => (Except.error errInvalidAccessToken, σ)
  | some payload =>
    if payload.type != TokenKind.access then
      (Except.error errInvalidAccessToken, σ)
    else
      match get_session_by_access_token σ tok with
      | none => (Except.error errSessionNotFoundAccess, σ)
      | some session =>
        if session.expires_at < now then
          (Except.error errSessionExpired, (delete_session σ session.id).2)
        else
          match get_user_by_id σ payload.sub with
          | none => (Except.error errUserNotFound, σ)
          | some user => (Except.ok user, σ)

/-- `AuthService.get_active_sessions`. -/
def get_active_sessions (σ : Store) (user_id : Nat) (now : Int) : List Session :=
  get_active_sessions_by_user σ user_id now

/-! ## Generic list lemmas -/

/-- A `find?` whose predicate holds at `s` and fails on everything other
than `s` locates `s`. -/
theorem find_of_unique {α : Type} {p : α → Bool} {s : α} (l : List α) :
    s ∈ l → p s = true → (∀ t ∈ l, t ≠ s → p t = false) →
    l.find? p = some s := by
  induction l with
  | nil => intro hmem _ _; cases hmem
  | cons a as ih =>
    intro hmem hp huniq
    cases hpa : p a with
    | true =>
      have has : a = s := by
        by_contra hne
        rw [huniq a (List.mem_cons_self a as) hne] at hpa
        cases hpa
      rw [List.find?_cons_of_pos _ hpa, has]
    | false =>
      have hsas : s ∈ as := by
        rcases List.mem_cons.mp hmem with h | h
        · rw [← h, hp] at hpa; cases hpa
        · exact h
      rw [List.find?_cons_of_neg _ (by simp [hpa])]
      exact ih hsas hp (fun t ht hne => huniq t (List.mem_cons_of_mem a ht) hne)

/-- The lengths of a filter and of its complement sum to the original
length. -/
theorem length_filter_add_compl {α : Type} (p : α → Bool) (l : List α) :
    (l.filter p).length + (l.filter (fun a => !(p a))).length = l.length := by
  induction l with
  | nil => rfl
  | cons a as ih =>
    cases hpa : p a <;> simp [List.filter_cons, hpa, ← ih] <;> omega

/-! ## Ordering lemmas for the active-session listing -/

/-- Inserting into the descending-by-creation order is a permutation of
consing. -/
theorem insertCreatedDesc_perm (s : Session) (l : List Session) :
    List.Perm (insertCreatedDesc s l) (s :: l) := by
  induction l with
  | nil => simp [insertCreatedDesc]
  | cons t ts ih =>
    by_cases h : t.created_at ≤ s.created_at
    · simp [insertCreatedDesc, h]
    · simp only [insertCreatedDesc, if_neg h]
      exact List.Perm.trans (List.Perm.cons t ih) (List.Perm.swap s t ts)

/-- Sorting by creation time descending permutes the input. -/
theorem sortCreatedDesc_perm (l : List Session) :
    List.Perm (sortCreatedDesc l) l := by
  induction l with
  | nil => simp [sortCreatedDesc]
  | cons s ss ih =>
    simp only [sortCreatedDesc]
    exact List.Perm.trans (insertCreatedDesc_perm s (sortCreatedDesc ss))
      (List.Perm.cons s ih)

/-- Insertion preserves the descending-by-creation pairwise order. -/
theorem insertCreatedDesc_pairwise {s : Session} {l : List Session}
    (h : List.Pairwise (fun a b => b.created_at ≤ a.created_at) l) :
    List.Pairwise (fun a b => b.created_at ≤ a.created_at)
      (insertCreatedDesc s l) := by
  induction l with
  | nil => simp [insertCreatedDesc]
  | cons t ts ih =>
    rcases List.pairwise_cons.mp h with ⟨ht, hts⟩
    by_cases hle : t.created_at ≤ s.created_at
    · simp only [insertCreatedDesc, if_pos hle]
      refine List.pairwise_cons.mpr ⟨?_, h⟩
      intro b hb
      rcases List.mem_cons.mp hb with rfl | hb'
      · exact hle
      · exact le_trans (ht b hb') hle
    · simp only [insertCreatedDesc, if_neg hle]
      refine List.pairwise_cons.mpr ⟨?_, ih hts⟩
      intro b hb
      have hb2 : b ∈ s :: ts := (insertCreatedDesc_perm s ts).mem_iff.mp hb
      rcases List.mem_cons.mp hb2 with rfl | hb'
      · exact (not_le.mp hle).le
      · exact ht b hb'

/-- The active-session listing's sort yields a descending-by-creation
pairwise ordered list. -/
theorem sortCreatedDesc_pairwise (l : List Session) :
    List.Pairwise (fun a b => b.created_at ≤ a.created_at)
      (sortCreatedDesc l) := by
  induction l with
  | nil => simp [sortCreatedDesc]
  | cons s ss ih =>
    simp only [sortCreatedDesc]
    exact insertCreatedDesc_pairwise ih

/-! ## A small concrete world used by the witnesses -/

/-- Concrete access token held by the concrete session. -/
def tokA0 : Token :=
  { kind := TokenKind.access, sub := 1, exp := 2000, sig_ok := true, nonce := 0 }

/-- Concrete refresh token held by the concrete session. -/
def tokR0 : Token :=
  { kind := TokenKind.refresh, sub := 1, exp := 700000, sig_ok := true, nonce := 1 }

/-- Concrete active user. -/
def user0 : User :=
  { id := 1, email := "a@x.com", password_hash := hash_password "pw12345678",
    display_name := some "Alice", role := "user", is_active := true,
    last_login := none }

/-- Concrete session owned by `user0`, expiring at time 1000. -/
def sess0 : Session :=
  { id := 10, user_id := 1, access_token := tokA0, refresh_token := tokR0,
    expires_at := 1000, device_info := none, ip_address := none,
    user_agent := none, created_at := 100 }

/-- Concrete store holding `user0` and `sess0`. -/
def store0 : Store := { users := [user0], sessions := [sess0] }

/-- Concrete deactivated user whose stored hash matches the password
`pw12345678`. -/
def user1 : User :=
  { id := 2, email := "b@x.com", password_hash := hash_password "pw12345678",
    display_name := none, role := "user", is_active := false,
    last_login := none }

/-- Concrete store whose only user is deactivated. -/
def store1 : Store := { users := [user1], sessions := [] }

/-- Concrete freshly issued access token (nonce 2) at time 500. -/
def tokA1 : Token := create_access_token 1 500 2

/-- Concrete freshly issued refresh token (nonce 3) at time 500. -/
def tokR1 : Token := create_refresh_token 1 500 3

/-- Status code of the error component of a `register` result, if any. -/
def registerErrStatus (r : Except HTTPError User × Store) : Option Nat :=
  match r.1 with
  | Except.error e => some e.status_code
  | Except.ok _ => none

/-! ## Lookup lemmas -/

/-- Looking a session up by the refresh token of a member session whose
refresh token no other session shares finds exactly that session. -/
theorem get_session_by_refresh_token_unique
    {σ : Store} {ss : Session} (hmem : ss ∈ σ.sessions)
    (huniq : ∀ t ∈ σ.sessions, t ≠ ss → t.refresh_token ≠ ss.refresh_token) :
    get_session_by_refresh_token σ ss.refresh_token = some ss :=
  find_of_unique _ hmem (by simp)
    (fun t ht hne => by simp [huniq t ht hne])

/-- Looking a session up by the access token of a member session whose
access token no other session shares finds exactly that session. -/
theorem get_session_by_access_token_unique
    {σ : Store} {ss : Session} (hmem : ss ∈ σ.sessions)
    (huniq : ∀ t ∈ σ.sessions, t ≠ ss → t.access_token ≠ ss.access_token) :
    get_session_by_access_token σ ss.access_token = some ss :=
  find_of_unique _ hmem (by simp)
    (fun t ht hne => by simp [huniq t ht hne])

/-- Looking a user up by the id of an active member user whose id no
other user shares finds exactly that user. -/
theorem get_user_by_id_unique
    {σ : Store} {u : User} (hmem : u ∈ σ.users) (hact : u.is_active = true)
    (huniq : ∀ t ∈ σ.users, t ≠ u → t.id ≠ u.id) :
    get_user_by_id σ u.id = some u :=
  find_of_unique _ hmem (by simp [hact])
    (fun t ht hne => by simp [huniq t ht hne])

/-- A valid unexpired token decodes to its own claims. -/
theorem decode_token_valid {t : Token} {now : Int}
    (hsig : t.sig_ok = true) (hclaim : now < t.exp) :
    decode_token t now = some { sub := t.sub, type := t.kind } := by
  simp [decode_token, hsig, hclaim]

/-! ## Path lemmas for the auth service -/

/-- Rotating a member session's tokens maps the update over the session
table. -/
theorem update_session_tokens_eq
    {σ : Store} {ss : Session} (hmem : ss ∈ σ.sessions)
    (huniq : ∀ t ∈ σ.sessions, t ≠ ss → t.id ≠ ss.id)
    (nA nR : Token) (nE : Int) :
    update_session_tokens σ ss.id nA nR nE =
      (some { ss with access_token := nA, refresh_token := nR, expires_at := nE },
       { σ with sessions := σ.sessions.map (fun t =>
           if t.id == ss.id then
             { t with access_token := nA, refresh_token := nR, expires_at := nE }
           else t) }) := by
  have hfind : σ.sessions.find? (fun s => s.id == ss.id) = some ss :=
    find_of_unique _ hmem (by simp) (fun t ht hne => by simp [huniq t ht hne])
  simp [update_session_tokens, hfind]

/-- Refreshing with the refresh token of a member unexpired session
succeeds with a freshly minted pair and rotates the row in place. -/
theorem refresh_ok_eq
    {σ : Store} {ss : Session} {now : Int} (na nr : Nat)
    (hmem : ss ∈ σ.sessions)
    (hsig : ss.refresh_token.sig_ok = true)
    (hkind : ss.refresh_token.kind = TokenKind.refresh)
    (hclaim : now < ss.refresh_token.exp)
    (huniqr : ∀ t ∈ σ.sessions, t ≠ ss → t.refresh_token ≠ ss.refresh_token)
    (huniqi : ∀ t ∈ σ.sessions, t ≠ ss → t.id ≠ ss.id)
    (hnotexp : ¬ ss.expires_at < now) :
    refresh_access_token σ ss.refresh_token now na nr =
      (Except.ok
        { access_token := create_access_token ss.refresh_token.sub now na,
          refresh_token := create_refresh_token ss.refresh_token.sub now nr,
          token_type := "bearer",
          expires_in := ACCESS_TOKEN_EXPIRE_MINUTES * 60 },
       { σ with sessions := σ.sessions.map (fun t =>
           if t.id == ss.id then
             { t with
                 access_token := create_access_token ss.refresh_token.sub now na,
                 refresh_token := create_refresh_token ss.refresh_token.sub now nr,
                 expires_at := now + REFRESH_TOKEN_EXPIRE_DAYS * 86400 }
           else t) }) := by
  have hdec := decode_token_valid hsig hclaim
  have hfind := get_session_by_refresh_token_unique hmem huniqr
  have hupd := update_session_tokens_eq hmem huniqi
    (create_access_token ss.refresh_token.sub now na)
    (create_refresh_token ss.refresh_token.sub now nr)
    (now + REFRESH_TOKEN_EXPIRE_DAYS * 86400)
  simp [refresh_access_token, hdec, hkind, hfind, hnotexp, hupd]

/-- Refreshing with the refresh token of a member expired session fails
with `SessionExpired` and deletes the row. -/
theorem refresh_expired_eq
    {σ : Store} {ss : Session} {now : Int} (na nr : Nat)
    (hmem : ss ∈ σ.sessions)
    (hsig : ss.refresh_token.sig_ok = true)
    (hkind : ss.refresh_token.kind = TokenKind.refresh)
    (hclaim : now < ss.refresh_token.exp)
    (huniqr : ∀ t ∈ σ.sessions, t ≠ ss → t.refresh_token ≠ ss.refresh_token)
    (hexp : ss.expires_at < now) :
    refresh_access_token σ ss.refresh_token now na nr =
      (Except.error errSessionExpired, (delete_session σ ss.id).2) := by
  have hdec := decode_token_valid hsig hclaim
  have hfind := get_session_by_refresh_token_unique hmem huniqr
  simp [refresh_access_token, hdec, hkind, hfind, hexp]

/-- Resolving a valid access token whose session is present and
unexpired yields the active user the token's subject names. -/
theorem get_current_ok
    {σ : Store} {tok : Token} {now : Int} {ss : Session} {u : User}
    (hsig : tok.sig_ok = true) (hkind : tok.kind = TokenKind.access)
    (hclaim : now < tok.exp)
    (hfind : get_session_by_access_token σ tok = some ss)
    (hnotexp : ¬ ss.expires_at < now)
    (huser : get_user_by_id σ tok.sub = some u) :
    get_current_user_from_token σ tok now = (Except.ok u, σ) := by
  have hdec := decode_token_valid hsig hclaim
  simp [get_current_user_from_token, hdec, hkind, hfind, hnotexp, huser]

/-- Resolving a valid access token that no session holds fails with
`SessionNotFound`. -/
theorem get_current_not_found
    {σ : Store} {tok : Token} {now : Int}
    (hsig : tok.sig_ok = true) (hkind : tok.kind = TokenKind.access)
    (hclaim : now < tok.exp)
    (hfind : get_session_by_access_token σ tok = none) :
    get_current_user_from_token σ tok now =
      (Except.error errSessionNotFoundAccess, σ) := by
  have hdec := decode_token_valid hsig hclaim
  simp [get_current_user_from_token, hdec, hkind, hfind]

/-- Resolving a valid access token whose session is expired fails with
`SessionExpired` and deletes the row. -/
theorem get_current_expired
    {σ : Store} {tok : Token} {now : Int} {ss : Session}
    (hsig : tok.sig_ok = true) (hkind : tok.kind = TokenKind.access)
    (hclaim : now < tok.exp)
    (hfind : get_session_by_access_token σ tok = some ss)
    (hexp : ss.expires_at < now) :
    get_current_user_from_token σ tok now =
      (Except.error errSessionExpired, (delete_session σ ss.id).2) := by
  have hdec := decode_token_valid hsig hclaim
  simp [get_current_user_from_token, hdec, hkind, hfind, hexp]

/-- Rotating a session's tokens leaves the user table unchanged. -/
theorem update_session_tokens_users
    (σ : Store) (sid : Nat) (nA nR : Token) (nE : Int) :
    (update_session_tokens σ sid nA nR nE).2.users = σ.users := by
  cases h : σ.sessions.find? (fun s => s.id == sid) <;>
    simp [update_session_tokens, h]

/-- Resolving a user by id is unaffected by a token rotation. -/
theorem get_user_by_id_update_session
    (σ : Store) (sid : Nat) (nA nR : Token) (nE : Int) (uid : Nat) :
    get_user_by_id (update_session_tokens σ sid nA nR nE).2 uid =
      get_user_by_id σ uid := by
  simp only [get_user_by_id, update_session_tokens_users]

/-- After rotating a member session to fresh tokens, looking the store
up by the session's former access token finds nothing, while looking it
up by the fresh access token finds the same row carrying the new token
fields. -/
theorem rotated_store_lookup
    {σ : Store} {ss : Session} (nA nR : Token) (nE : Int)
    (hmem : ss ∈ σ.sessions)
    (huniq_at : ∀ t ∈ σ.sessions, t ≠ ss → t.access_token ≠ ss.access_token)
    (huniq_id : ∀ t ∈ σ.sessions, t ≠ ss → t.id ≠ ss.id)
    (hfresh : ∀ t ∈ σ.sessions, t.access_token ≠ nA) :
    get_session_by_access_token (update_session_tokens σ ss.id nA nR nE).2
      ss.access_token = none
    ∧ get_session_by_access_token (update_session_tokens σ ss.id nA nR nE).2 nA =
        some { ss with access_token := nA, refresh_token := nR,
                       expires_at := nE } := by
  have hupd := update_session_tokens_eq hmem huniq_id nA nR nE
  constructor
  · rw [hupd]
    apply List.find?_eq_none.mpr
    intro x hx hp
    rcases List.mem_map.mp hx with ⟨t, ht, rfl⟩
    by_cases h : (t.id == ss.id) = true
    · simp only [h, if_true, beq_iff_eq] at hp
      exact hfresh ss hmem hp.symm
    · simp only [Bool.not_eq_true] at h
      simp only [h, Bool.false_eq_true, if_false, beq_iff_eq] at hp
      have hne : t ≠ ss := by
        intro he
        rw [he] at h
        simp at h
      exact huniq_at t ht hne hp
  · rw [hupd]
    apply find_of_unique
    · exact List.mem_map.mpr ⟨ss, hmem, by simp⟩
    · simp
    · intro x hx hne
      rcases List.mem_map.mp hx with ⟨t, ht, rfl⟩
      by_cases h : (t.id == ss.id) = true
      · have ht2 : t = ss := by
          by_contra hcon
          exact huniq_id t ht hcon (by simpa using h)
        subst ht2
        simp at hne
      · simp only [Bool.not_eq_true] at h
        simp only [h, Bool.false_eq_true, if_false]
        exact beq_eq_false_iff_ne.mpr (hfresh t ht)

/-! ## Idempotence lemmas for the session-store deletions -/

/-- Deleting an id no session has returns false and changes nothing. -/
theorem delete_session_missing {σ : Store} {sid : Nat}
    (h : ∀ s ∈ σ.sessions, s.id ≠ sid) :
    delete_session σ sid = (false, σ) := by
  have hany : σ.sessions.any (fun s => s.id == sid) = false := by
    apply List.any_eq_false.mpr
    intro s hs
    simp [h s hs]
  have hfil : σ.sessions.filter (fun s => !(s.id == sid)) = σ.sessions := by
    apply List.filter_eq_self.mpr
    intro s hs
    simp [h s hs]
  simp [delete_session, hany, hfil]

/-- Deleting an access token no session holds returns false and changes
nothing. -/
theorem delete_session_by_access_token_missing {σ : Store} {tok : Token}
    (h : ∀ s ∈ σ.sessions, s.access_token ≠ tok) :
    delete_session_by_access_token σ tok = (false, σ) := by
  have hany : σ.sessions.any (fun s => s.access_token == tok) = false := by
    apply List.any_eq_false.mpr
    intro s hs
    simp [h s hs]
  have hfil : σ.sessions.filter (fun s => !(s.access_token == tok)) = σ.sessions := by
    apply List.filter_eq_self.mpr
    intro s hs
    simp [h s hs]
  simp [delete_session_by_access_token, hany, hfil]

/-- Deleting all sessions of a user who owns none returns zero and
changes nothing. -/
theorem delete_all_user_sessions_missing {σ : Store} {uid : Nat}
    (h : ∀ s ∈ σ.sessions, s.user_id ≠ uid) :
    delete_all_user_sessions σ uid = (0, σ) := by
  have hnil : σ.sessions.filter (fun s => s.user_id == uid) = [] := by
    apply List.filter_eq_nil_iff.mpr
    intro s hs
    simp [h s hs]
  have hfil : σ.sessions.filter (fun s => !(s.user_id == uid)) = σ.sessions := by
    apply List.filter_eq_self.mpr
    intro s hs
    simp [h s hs]
  simp [delete_all_user_sessions, hnil, hfil]

/-- A second deletion of the same session id is a no-op returning false. -/
theorem delete_session_twice (σ : Store) (sid : Nat) :
    delete_session (delete_session σ sid).2 sid =
      (false, (delete_session σ sid).2) := by
  apply delete_session_missing
  intro s hs
  have := List.of_mem_filter hs
  simpa using this

/-- A second deletion by the same access token is a no-op returning
false. -/
theorem delete_session_by_access_token_twice (σ : Store) (tok : Token) :
    delete_session_by_access_token (delete_session_by_access_token σ tok).2 tok =
      (false, (delete_session_by_access_token σ tok).2) := by
  apply delete_session_by_access_token_missing
  intro s hs
  have := List.of_mem_filter hs
  simpa using this

/-- A second logout-all for the same user is a no-op returning zero. -/
theorem delete_all_user_sessions_twice (σ : Store) (uid : Nat) :
    delete_all_user_sessions (delete_all_user_sessions σ uid).2 uid =
      (0, (delete_all_user_sessions σ uid).2) := by
  apply delete_all_user_sessions_missing
  intro s hs
  have := List.of_mem_filter hs
  simpa using this

/-! ## Claim theorems -/

/-- C2 counterexample: a deactivated user whose stored hash matches the
supplied password. Login fails with `InvalidCredentials` (401), which
differs from `AccountDeactivated` (403), contradicting the claim that
this case yields `AccountDeactivated`. -/
theorem c2_inactive_login_counterexample :
    verify_password "pw12345678" user1.password_hash = true
    ∧ user1.is_active = false
    ∧ (login store1 "b@x.com" "pw12345678" 0 5 6 7 none none none).1 =
        Except.error errInvalidCredentials
    ∧ errInvalidCredentials ≠ errAccountDeactivated := by
  refine ⟨by decide, by decide, by decide, by decide⟩

/-- C2 (amended): when every user holding the email is inactive, login
with that email — even with the correct password — fails with
`InvalidCredentials` (401), not `AccountDeactivated`: the user lookup
filters on `is_active`, so the deactivated branch of `login` is
unreachable. -/
theorem c2_inactive_login_invalid_credentials
    (σ : Store) (email password : String) (now : Int) (sid na nr : Nat)
    (d i a : Option String)
    (h : ∀ u ∈ σ.users, u.email = email → u.is_active = false) :
    login σ email password now sid na nr d i a =
      (Except.error errInvalidCredentials, σ)
    ∧ errInvalidCredentials.status_code = 401 := by
  have hfind : get_user_by_email σ email = none := by
    apply List.find?_eq_none.mpr
    intro u hu hp
    simp only [Bool.and_eq_true, beq_iff_eq] at hp
    obtain ⟨he, ha⟩ := hp
    rw [h u hu he] at ha
    cases ha
  exact ⟨by simp [login, hfind], rfl⟩

/-- C2 witness: the amended statement evaluated at the concrete
deactivated user. -/
theorem c2_witness :
    login store1 "b@x.com" "pw12345678" 0 5 6 7 none none none =
      (Except.error errInvalidCredentials, store1)
    ∧ errInvalidCredentials.status_code = 401 :=
  c2_inactive_login_invalid_credentials store1 "b@x.com" "pw12345678" 0 5 6 7
    none none none (by decide)

/-- C4: login with an email matching no active user and login with an
active user's email but a password failing verification both return the
very same `InvalidCredentials` error — equal status code and equal
message — and leave the store unchanged. -/
theorem c4_invalid_credentials_indistinguishable
    (σ : Store) (email1 password1 email2 password2 : String) (u : User)
    (now : Int) (sid na nr : Nat) (d i a : Option String)
    (h1 : get_user_by_email σ email1 = none)
    (h2 : get_user_by_email σ email2 = some u)
    (h3 : verify_password password2 u.password_hash = false) :
    login σ email1 password1 now sid na nr d i a =
      (Except.error errInvalidCredentials, σ)
    ∧ login σ email2 password2 now sid na nr d i a =
      (Except.error errInvalidCredentials, σ)
    ∧ errInvalidCredentials.status_code = 401
    ∧ errInvalidCredentials.detail = "Invalid email or password" := by
  refine ⟨by simp [login, h1], by simp [login, h2, h3], rfl, rfl⟩

/-- C4 witness: the two scenarios at the concrete store — an unknown
email and the known email with a wrong password. -/
theorem c4_witness :
    login store0 "zz@x.com" "pw12345678" 0 5 6 7 none none none =
      (Except.error errInvalidCredentials, store0)
    ∧ login store0 "a@x.com" "wrong-password" 0 5 6 7 none none none =
      (Except.error errInvalidCredentials, store0)
    ∧ errInvalidCredentials.status_code = 401
    ∧ errInvalidCredentials.detail = "Invalid email or password" :=
  c4_invalid_credentials_indistinguishable store0 "zz@x.com" "pw12345678"
    "a@x.com" "wrong-password" user0 0 5 6 7 none none none
    (by decide) (by decide) (by decide)

/-- C5: registering an email some stored user already holds fails with a
400 duplicate-email error and leaves the store unchanged — whether the
holder is active (caught by the pre-check) or inactive (caught by the
unique index in `create_user`). -/
theorem c5_duplicate_email_register_fails
    (σ : Store) (email password : String) (display_name : Option String)
    (new_id : Nat) (u : User)
    (hmem : u ∈ σ.users) (hemail : u.email = email) :
    (register σ email password display_name new_id).2 = σ
    ∧ registerErrStatus (register σ email password display_name new_id) =
        some 400 := by
  cases hfind : get_user_by_email σ email with
  | some v => exact ⟨by simp [register, hfind], by simp [register, hfind, registerErrStatus]⟩
  | none =>
    have hany : σ.users.any (fun v => v.email == email) = true :=
      List.any_eq_true.mpr ⟨u, hmem, by simp [hemail]⟩
    constructor
    · simp [register, hfind, create_user, hany]
    · simp [register, hfind, create_user, hany, registerErrStatus]

/-- C5 witness: re-registering the concrete active user's email. -/
theorem c5_witness :
    (register store0 "a@x.com" "another-pass" none 99).2 = store0
    ∧ registerErrStatus (register store0 "a@x.com" "another-pass" none 99) =
        some 400 :=
  c5_duplicate_email_register_fails store0 "a@x.com" "another-pass" none 99
    user0 (by decide) (by decide)

/-- C7 counterexample: deleting the concrete user leaves their session
findable by access token, contradicting the claim that deleting a user
deletes (cascades to) the user's session rows. -/
theorem c7_cascade_counterexample :
    sess0.user_id = user0.id
    ∧ get_session_by_access_token (delete_user store0 user0.id) tokA0 =
        some sess0
    ∧ (delete_user store0 user0.id).sessions = store0.sessions
    ∧ get_user_by_id (delete_user store0 user0.id) user0.id = none := by
  refine ⟨by decide, by decide, by decide, by decide⟩

/-- C7 (amended): `delete_user` is a soft delete. It leaves the session
table untouched — every token lookup answers exactly as before — while
the user stops resolving through `get_user_by_id`, so token
authentication for that user subsequently fails with `UserNotFound`
rather than by session removal. -/
theorem c7_soft_delete_keeps_sessions (σ : Store) (uid : Nat) (tok : Token) :
    (delete_user σ uid).sessions = σ.sessions
    ∧ get_session_by_access_token (delete_user σ uid) tok =
        get_session_by_access_token σ tok
    ∧ get_session_by_refresh_token (delete_user σ uid) tok =
        get_session_by_refresh_token σ tok
    ∧ get_user_by_id (delete_user σ uid) uid = none := by
  refine ⟨rfl, rfl, rfl, ?_⟩
  apply List.find?_eq_none.mpr
  intro x hx hp
  simp only [delete_user] at hx
  rcases List.mem_map.mp hx with ⟨v, hv, rfl⟩
  by_cases hid : (v.id == uid) = true
  · simp [hid] at hp
  · simp only [Bool.not_eq_true] at hid
    simp [hid] at hp

/-- C9: the three deletion operations are idempotent: applied to a
target no session matches they return false or zero and leave the store
unchanged, and repeating any of them on the same target is a no-op
returning false or zero. -/
theorem c9_deletions_idempotent
    (σ : Store) (sid : Nat) (tok : Token) (uid : Nat)
    (σ2 : Store) (sid2 : Nat) (tok2 : Token) (uid2 : Nat)
    (h1 : ∀ s ∈ σ.sessions, s.id ≠ sid)
    (h2 : ∀ s ∈ σ.sessions, s.access_token ≠ tok)
    (h3 : ∀ s ∈ σ.sessions, s.user_id ≠ uid) :
    delete_session σ sid = (false, σ)
    ∧ delete_session_by_access_token σ tok = (false, σ)
    ∧ delete_all_user_sessions σ uid = (0, σ)
    ∧ delete_session (delete_session σ2 sid2).2 sid2 =
        (false, (delete_session σ2 sid2).2)
    ∧ delete_session_by_access_token
        (delete_session_by_access_token σ2 tok2).2 tok2 =
        (false, (delete_session_by_access_token σ2 tok2).2)
    ∧ delete_all_user_sessions (delete_all_user_sessions σ2 uid2).2 uid2 =
        (0, (delete_all_user_sessions σ2 uid2).2) :=
  ⟨delete_session_missing h1,
   delete_session_by_access_token_missing h2,
   delete_all_user_sessions_missing h3,
   delete_session_twice σ2 sid2,
   delete_session_by_access_token_twice σ2 tok2,
   delete_all_user_sessions_twice σ2 uid2⟩

/-- C6: rotating a present session overwrites exactly the access token,
refresh token and expiry of that row — the id, the owning user id, the
creation timestamp and the device/IP/user-agent metadata of every row
are preserved, rows other than the target are untouched — while
rotating an absent session id returns none and changes nothing. -/
theorem c6_rotate_frame
    (σ : Store) (sid : Nat) (nA nR : Token) (nE : Int) (ss : Session)
    (σ0 : Store) (sid0 : Nat)
    (hmem : ss ∈ σ.sessions) (hsid : ss.id = sid)
    (huniq : ∀ t ∈ σ.sessions, t ≠ ss → t.id ≠ ss.id)
    (hnone : ∀ t ∈ σ0.sessions, t.id ≠ sid0) :
    (update_session_tokens σ sid nA nR nE).1 =
      some { ss with access_token := nA, refresh_token := nR, expires_at := nE }
    ∧ { ss with access_token := nA, refresh_token := nR, expires_at := nE } ∈
        (update_session_tokens σ sid nA nR nE).2.sessions
    ∧ (∀ t ∈ (update_session_tokens σ sid nA nR nE).2.sessions,
        ∃ s ∈ σ.sessions, t.id = s.id ∧ t.user_id = s.user_id
          ∧ t.created_at = s.created_at ∧ t.device_info = s.device_info
          ∧ t.ip_address = s.ip_address ∧ t.user_agent = s.user_agent)
    ∧ (∀ t ∈ σ.sessions, t ≠ ss →
        t ∈ (update_session_tokens σ sid nA nR nE).2.sessions)
    ∧ update_session_tokens σ0 sid0 nA nR nE = (none, σ0) := by
  subst hsid
  have hupd := update_session_tokens_eq hmem huniq nA nR nE
  refine ⟨?_, ?_, ?_, ?_, ?_⟩
  · rw [hupd]
  · rw [hupd]
    exact List.mem_map.mpr ⟨ss, hmem, by simp⟩
  · intro t ht
    rw [hupd] at ht
    rcases List.mem_map.mp ht with ⟨s, hs, rfl⟩
    refine ⟨s, hs, ?_⟩
    by_cases h : (s.id == ss.id) = true
    · simp [h]
    · simp only [Bool.not_eq_true] at h
      simp [h]
  · intro t ht hne
    rw [hupd]
    refine List.mem_map.mpr ⟨t, ht, ?_⟩
    simp [huniq t ht hne]
  · have hfind : σ0.sessions.find? (fun s => s.id == sid0) = none := by
      apply List.find?_eq_none.mpr
      intro s hs hp
      simp [hnone s hs] at hp
    simp [update_session_tokens, hfind]

/-- C6 witness: the frame property evaluated at the concrete store, and
rotation of an absent id. -/
theorem c6_witness :
    (update_session_tokens store0 10 tokA1 tokR1 9999).1 =
      some { sess0 with access_token := tokA1, refresh_token := tokR1,
                        expires_at := 9999 }
    ∧ { sess0 with access_token := tokA1, refresh_token := tokR1,
                   expires_at := 9999 } ∈
        (update_session_tokens store0 10 tokA1 tokR1 9999).2.sessions
    ∧ update_session_tokens store0 999 tokA1 tokR1 9999 = (none, store0) := by
  have h := c6_rotate_frame store0 10 tokA1 tokR1 9999 sess0 store0 999
    (by decide) (by decide) (by decide) (by decide)
  exact ⟨h.1, h.2.1, h.2.2.2.2⟩

/-- C8: `logout_all` deletes exactly the user's session rows — the
deleted count plus the remaining rows account for the whole table and
every surviving row belongs to someone else — after which the user's
active-session listing is empty; in general the active-session listing
holds exactly the user's sessions with expiry strictly after now,
pairwise ordered newest-first by creation time. -/
theorem c8_logout_all_and_active_sessions
    (σ : Store) (uid uid2 : Nat) (now : Int) :
    (logout_all_sessions σ uid).1 +
        (logout_all_sessions σ uid).2.sessions.length = σ.sessions.length
    ∧ (∀ s ∈ (logout_all_sessions σ uid).2.sessions,
        s ∈ σ.sessions ∧ s.user_id ≠ uid)
    ∧ get_active_sessions_by_user (logout_all_sessions σ uid).2 uid now = []
    ∧ (∀ s : Session, s ∈ get_active_sessions_by_user σ uid2 now ↔
        s ∈ σ.sessions ∧ s.user_id = uid2 ∧ now < s.expires_at)
    ∧ List.Pairwise (fun a b => b.created_at ≤ a.created_at)
        (get_active_sessions_by_user σ uid2 now) := by
  refine ⟨?_, ?_, ?_, ?_, ?_⟩
  · exact length_filter_add_compl (fun s => s.user_id == uid) σ.sessions
  · intro s hs
    have hs' : s ∈ σ.sessions.filter (fun s => !(s.user_id == uid)) := hs
    refine ⟨List.mem_of_mem_filter hs', ?_⟩
    have := List.of_mem_filter hs'
    simpa using this
  · have hnil : ((logout_all_sessions σ uid).2.sessions.filter
        (fun s => s.user_id == uid && decide (now < s.expires_at))) = [] := by
      apply List.filter_eq_nil_iff.mpr
      intro s hs
      have hs' : s ∈ σ.sessions.filter (fun s => !(s.user_id == uid)) := hs
      have hno := List.of_mem_filter hs'
      simp only [Bool.not_eq_true'] at hno
      simp [hno]
    show sortCreatedDesc ((logout_all_sessions σ uid).2.sessions.filter
        (fun s => s.user_id == uid && decide (now < s.expires_at))) = []
    rw [hnil]
    rfl
  · intro s
    constructor
    · intro hs
      have hs' : s ∈ σ.sessions.filter
          (fun s => s.user_id == uid2 && decide (now < s.expires_at)) :=
        (sortCreatedDesc_perm _).mem_iff.mp hs
      have hp := List.of_mem_filter hs'
      simp only [Bool.and_eq_true, beq_iff_eq, decide_eq_true_eq] at hp
      exact ⟨List.mem_of_mem_filter hs', hp.1, hp.2⟩
    · rintro ⟨hmem, hu, he⟩
      apply (sortCreatedDesc_perm _).mem_iff.mpr
      apply List.mem_filter.mpr
      exact ⟨hmem, by simp [hu, he]⟩
  · exact sortCreatedDesc_pairwise _

/-- C9 witness: deletions aimed at targets the concrete store does not
hold, and repeated deletions of its one session. -/
theorem c9_witness :
    delete_session store0 999 = (false, store0)
    ∧ delete_session_by_access_token store0 tokR0 = (false, store0)
    ∧ delete_all_user_sessions store0 42 = (0, store0)
    ∧ delete_session (delete_session store0 10).2 10 =
        (false, (delete_session store0 10).2)
    ∧ delete_session_by_access_token
        (delete_session_by_access_token store0 tokA0).2 tokA0 =
        (false, (delete_session_by_access_token store0 tokA0).2)
    ∧ delete_all_user_sessions (delete_all_user_sessions store0 1).2 1 =
        (0, (delete_all_user_sessions store0 1).2) :=
  c9_deletions_idempotent store0 999 tokR0 42 store0 10 tokA0 1
    (by decide) (by decide) (by decide)

/-- C1: a successful refresh rotates both token fields of the same
session row in place; afterwards the pre-refresh access token fails
`get_current_user_from_token` with `SessionNotFound`, while the freshly
issued access token succeeds and returns the session's user. -/
theorem c1_rotation_invalidates_old_pair
    (σ : Store) (ss : Session) (u : User) (now : Int) (na nr : Nat)
    (hmem : ss ∈ σ.sessions)
    (huniq_at : ∀ t ∈ σ.sessions, t ≠ ss → t.access_token ≠ ss.access_token)
    (huniq_rt : ∀ t ∈ σ.sessions, t ≠ ss → t.refresh_token ≠ ss.refresh_token)
    (huniq_id : ∀ t ∈ σ.sessions, t ≠ ss → t.id ≠ ss.id)
    (hr_sig : ss.refresh_token.sig_ok = true)
    (hr_kind : ss.refresh_token.kind = TokenKind.refresh)
    (hr_claim : now < ss.refresh_token.exp)
    (ha_sig : ss.access_token.sig_ok = true)
    (ha_kind : ss.access_token.kind = TokenKind.access)
    (ha_claim : now < ss.access_token.exp)
    (hnotexp : ¬ ss.expires_at < now)
    (hsub : ss.refresh_token.sub = ss.user_id)
    (hfresh : ∀ t ∈ σ.sessions,
      t.access_token ≠ create_access_token ss.user_id now na)
    (humem : u ∈ σ.users) (huid : u.id = ss.user_id)
    (hact : u.is_active = true)
    (huuniq : ∀ t ∈ σ.users, t ≠ u → t.id ≠ u.id) :
    (refresh_access_token σ ss.refresh_token now na nr).1 =
      Except.ok
        { access_token := create_access_token ss.user_id now na,
          refresh_token := create_refresh_token ss.user_id now nr,
          token_type := "bearer",
          expires_in := ACCESS_TOKEN_EXPIRE_MINUTES * 60 }
    ∧ (get_current_user_from_token
         (refresh_access_token σ ss.refresh_token now na nr).2
         ss.access_token now).1 = Except.error errSessionNotFoundAccess
    ∧ get_current_user_from_token
        (refresh_access_token σ ss.refresh_token now na nr).2
        (create_access_token ss.user_id now na) now =
      (Except.ok u, (refresh_access_token σ ss.refresh_token now na nr).2)
    ∧ get_session_by_access_token
        (refresh_access_token σ ss.refresh_token now na nr).2
        (create_access_token ss.user_id now na) =
      some { ss with
               access_token := create_access_token ss.user_id now na,
               refresh_token := create_refresh_token ss.user_id now nr,
               expires_at := now + REFRESH_TOKEN_EXPIRE_DAYS * 86400 } := by
  have hrefresh :=
    refresh_ok_eq na nr hmem hr_sig hr_kind hr_claim huniq_rt huniq_id hnotexp
  rw [hsub] at hrefresh
  have hs2 : (refresh_access_token σ ss.refresh_token now na nr).2 =
      (update_session_tokens σ ss.id (create_access_token ss.user_id now na)
        (create_refresh_token ss.user_id now nr)
        (now + REFRESH_TOKEN_EXPIRE_DAYS * 86400)).2 := by
    rw [hrefresh, update_session_tokens_eq hmem huniq_id]
  have hlooks := @rotated_store_lookup σ ss
    (create_access_token ss.user_id now na)
    (create_refresh_token ss.user_id now nr)
    (now + REFRESH_TOKEN_EXPIRE_DAYS * 86400) hmem huniq_at huniq_id hfresh
  have hclaimA : now < (create_access_token ss.user_id now na).exp := by
    simp only [create_access_token, ACCESS_TOKEN_EXPIRE_MINUTES]
    omega
  refine ⟨?_, ?_, ?_, ?_⟩
  · rw [hrefresh]
  · rw [hs2, get_current_not_found ha_sig ha_kind ha_claim hlooks.1]
  · rw [hs2]
    have huser : get_user_by_id
        (update_session_tokens σ ss.id (create_access_token ss.user_id now na)
          (create_refresh_token ss.user_id now nr)
          (now + REFRESH_TOKEN_EXPIRE_DAYS * 86400)).2 ss.user_id = some u := by
      rw [get_user_by_id_update_session, ← huid]
      exact get_user_by_id_unique humem hact huuniq
    refine get_current_ok rfl rfl hclaimA hlooks.2 ?_ huser
    simp only [REFRESH_TOKEN_EXPIRE_DAYS]
    omega
  · rw [hs2]
    exact hlooks.2

/-- C1 witness: the rotation scenario at the concrete store, at time
500, with fresh nonces 2 and 3. -/
theorem c1_witness :
    (refresh_access_token store0 tokR0 500 2 3).1 =
      Except.ok { access_token := tokA1, refresh_token := tokR1,
                  token_type := "bearer", expires_in := 1800 }
    ∧ (get_current_user_from_token (refresh_access_token store0 tokR0 500 2 3).2
         tokA0 500).1 = Except.error errSessionNotFoundAccess
    ∧ get_current_user_from_token (refresh_access_token store0 tokR0 500 2 3).2
        tokA1 500 =
      (Except.ok user0, (refresh_access_token store0 tokR0 500 2 3).2)
    ∧ get_session_by_access_token (refresh_access_token store0 tokR0 500 2 3).2
        tokA1 =
      some { sess0 with access_token := tokA1, refresh_token := tokR1,
                        expires_at := 605300 } :=
  c1_rotation_invalidates_old_pair store0 sess0 user0 500 2 3
    (by decide) (by decide) (by decide) (by decide) (by decide) (by decide)
    (by decide) (by decide) (by decide) (by decide) (by decide) (by decide)
    (by decide) (by decide) (by decide) (by decide) (by decide)

/-- C3: with a session whose expiry is strictly past, both the refresh
path (given its refresh token) and the access path (given its access
token) fail with `SessionExpired` and delete the row, after which a
lookup by either token finds no session at all. -/
theorem c3_expired_session_lazy_eviction
    (σ : Store) (ss : Session) (now : Int) (na nr : Nat)
    (hmem : ss ∈ σ.sessions)
    (huniq_at : ∀ t ∈ σ.sessions, t ≠ ss → t.access_token ≠ ss.access_token)
    (huniq_rt : ∀ t ∈ σ.sessions, t ≠ ss → t.refresh_token ≠ ss.refresh_token)
    (hr_sig : ss.refresh_token.sig_ok = true)
    (hr_kind : ss.refresh_token.kind = TokenKind.refresh)
    (hr_claim : now < ss.refresh_token.exp)
    (ha_sig : ss.access_token.sig_ok = true)
    (ha_kind : ss.access_token.kind = TokenKind.access)
    (ha_claim : now < ss.access_token.exp)
    (hexp : ss.expires_at < now) :
    refresh_access_token σ ss.refresh_token now na nr =
      (Except.error errSessionExpired, (delete_session σ ss.id).2)
    ∧ get_current_user_from_token σ ss.access_token now =
      (Except.error errSessionExpired, (delete_session σ ss.id).2)
    ∧ get_session_by_access_token (delete_session σ ss.id).2
        ss.access_token = none
    ∧ get_session_by_refresh_token (delete_session σ ss.id).2
        ss.refresh_token = none := by
  have hfind_at := get_session_by_access_token_unique hmem huniq_at
  refine ⟨refresh_expired_eq na nr hmem hr_sig hr_kind hr_claim huniq_rt hexp,
          get_current_expired ha_sig ha_kind ha_claim hfind_at hexp, ?_, ?_⟩
  · apply List.find?_eq_none.mpr
    intro x hx hp
    have hx' : x ∈ σ.sessions.filter (fun s => !(s.id == ss.id)) := hx
    have hne : x ≠ ss := by
      intro h
      have := List.of_mem_filter hx'
      rw [h] at this
      simp at this
    simp only [beq_iff_eq] at hp
    exact huniq_at x (List.mem_of_mem_filter hx') hne hp
  · apply List.find?_eq_none.mpr
    intro x hx hp
    have hx' : x ∈ σ.sessions.filter (fun s => !(s.id == ss.id)) := hx
    have hne : x ≠ ss := by
      intro h
      have := List.of_mem_filter hx'
      rw [h] at this
      simp at this
    simp only [beq_iff_eq] at hp
    exact huniq_rt x (List.mem_of_mem_filter hx') hne hp

/-- C3 witness: the expired concrete session at time 1500. -/
theorem c3_witness :
    refresh_access_token store0 tokR0 1500 2 3 =
      (Except.error errSessionExpired, (delete_session store0 10).2)
    ∧ get_current_user_from_token store0 tokA0 1500 =
      (Except.error errSessionExpired, (delete_session store0 10).2)
    ∧ get_session_by_access_token (delete_session store0 10).2 tokA0 = none
    ∧ get_session_by_refresh_token (delete_session store0 10).2 tokR0 = none :=
  c3_expired_session_lazy_eviction store0 sess0 1500 2 3
    (by decide) (by decide) (by decide) (by decide) (by decide) (by decide)
    (by decide) (by decide) (by decide) (by decide)

/-- C10: at the exact expiry instant the comparisons disagree — the two
token paths use a strict `expires_at < now` check, so the session still
authenticates (resolution succeeds and refresh succeeds), while the
active-session listing's strict `expires_at > now` filter excludes it
and the cleanup sweep's `expires_at <= now` condition removes it. -/
theorem c10_expiry_boundary_disagreement
    (σ : Store) (ss : Session) (u : User) (now : Int) (na nr : Nat)
    (hmem : ss ∈ σ.sessions)
    (huniq_at : ∀ t ∈ σ.sessions, t ≠ ss → t.access_token ≠ ss.access_token)
    (huniq_rt : ∀ t ∈ σ.sessions, t ≠ ss → t.refresh_token ≠ ss.refresh_token)
    (huniq_id : ∀ t ∈ σ.sessions, t ≠ ss → t.id ≠ ss.id)
    (hboundary : ss.expires_at = now)
    (ha_sig : ss.access_token.sig_ok = true)
    (ha_kind : ss.access_token.kind = TokenKind.access)
    (ha_claim : now < ss.access_token.exp)
    (hsub_a : ss.access_token.sub = ss.user_id)
    (hr_sig : ss.refresh_token.sig_ok = true)
    (hr_kind : ss.refresh_token.kind = TokenKind.refresh)
    (hr_claim : now < ss.refresh_token.exp)
    (hsub_r : ss.refresh_token.sub = ss.user_id)
    (humem : u ∈ σ.users) (huid : u.id = ss.user_id)
    (hact : u.is_active = true)
    (huuniq : ∀ t ∈ σ.users, t ≠ u → t.id ≠ u.id) :
    (get_current_user_from_token σ ss.access_token now).1 = Except.ok u
    ∧ (refresh_access_token σ ss.refresh_token now na nr).1 =
        Except.ok
          { access_token := create_access_token ss.user_id now na,
            refresh_token := create_refresh_token ss.user_id now nr,
            token_type := "bearer",
            expires_in := ACCESS_TOKEN_EXPIRE_MINUTES * 60 }
    ∧ ss ∉ get_active_sessions_by_user σ ss.user_id now
    ∧ get_session_by_access_token (delete_expired_sessions σ now).2
        ss.access_token = none := by
  have hnotexp : ¬ ss.expires_at < now := by
    rw [hboundary]
    exact lt_irrefl now
  refine ⟨?_, ?_, ?_, ?_⟩
  · have hfind := get_session_by_access_token_unique hmem huniq_at
    have huser : get_user_by_id σ ss.access_token.sub = some u := by
      rw [hsub_a, ← huid]
      exact get_user_by_id_unique humem hact huuniq
    rw [get_current_ok ha_sig ha_kind ha_claim hfind hnotexp huser]
  · have hrefresh :=
      refresh_ok_eq na nr hmem hr_sig hr_kind hr_claim huniq_rt huniq_id hnotexp
    rw [hsub_r] at hrefresh
    rw [hrefresh]
  · intro hin
    have hin' : ss ∈ σ.sessions.filter
        (fun s => s.user_id == ss.user_id && decide (now < s.expires_at)) :=
      (sortCreatedDesc_perm _).mem_iff.mp hin
    have hp := List.of_mem_filter hin'
    simp only [Bool.and_eq_true, decide_eq_true_eq] at hp
    rw [hboundary] at hp
    exact lt_irrefl now hp.2
  · apply List.find?_eq_none.mpr
    intro x hx hp
    have hx' : x ∈ σ.sessions.filter (fun s => !(decide (s.expires_at ≤ now))) :=
      hx
    have hxlt := List.of_mem_filter hx'
    simp only [Bool.not_eq_true', decide_eq_false_iff_not, not_le] at hxlt
    have hne : x ≠ ss := by
      intro h
      rw [h, hboundary] at hxlt
      exact lt_irrefl now hxlt
    simp only [beq_iff_eq] at hp
    exact huniq_at x (List.mem_of_mem_filter hx') hne hp

/-- C10 witness: the concrete session at its exact expiry instant
1000. -/
theorem c10_witness :
    (get_current_user_from_token store0 tokA0 1000).1 = Except.ok user0
    ∧ (refresh_access_token store0 tokR0 1000 2 3).1 =
        Except.ok
          { access_token := create_access_token 1 1000 2,
            refresh_token := create_refresh_token 1 1000 3,
            token_type := "bearer", expires_in := 1800 }
    ∧ sess0 ∉ get_active_sessions_by_user store0 1 1000
    ∧ get_session_by_access_token (delete_expired_sessions store0 1000).2
        tokA0 = none :=
  c10_expiry_boundary_disagreement store0 sess0 user0 1000 2 3
    (by decide) (by decide) (by decide) (by decide) (by decide) (by decide)
    (by decide) (by decide) (by decide) (by decide) (by decide) (by decide)
    (by decide) (by decide) (by decide) (by decide) (by decide)

end NoteApp
